import Mathlib

/-!
Shallow embedding of the ReCon remote-management engine
(`src/recon/model.py`): host registry, SSH session setup with typed
failure classification, cache-aware resource enumerators (consoles,
local networks, reachable nodes), the subnet reachability sweep,
HTTPS tunnel toggling, key deployment and shutdown.

Remote and OS behaviour (paramiko, subprocess, sockets, filesystem)
is modelled by an explicit environment `Env`.  Every externally
observable effect — event-handler call, remote command, registry
persistence, process spawn, file operation — is recorded in a trace
of `Act` values.  Python exceptions are modelled as `Except` /
`Option` error results threaded through the control flow, so that a
raised exception carries along whatever state mutations had already
happened (Python mutations are not rolled back by an exception).
-/

namespace Recon

/-- Model of `ipaddress.IPv4Network`: 32-bit network address plus the
mask length (`prefixlen`). -/
structure IPv4Network where
  netAddr : Nat
  maskLen : Nat
deriving DecidableEq, Repr

/-- Dotted-quad rendering of a 32-bit address (`str(IPv4Address)`). -/
def ipToString (n : Nat) : String :=
  toString (n / 16777216 % 256) ++ "." ++ toString (n / 65536 % 256) ++ "."
    ++ toString (n / 256 % 256) ++ "." ++ toString (n % 256)

/-- `str(IPv4Network)`: dotted network address slash mask length. -/
def netToString (net : IPv4Network) : String :=
  ipToString net.netAddr ++ "/" ++ toString net.maskLen

/-- Usable host addresses of a network, ascending
(`IPv4Network.hosts()`): every address except the network and
broadcast addresses; for /31 and /32 all addresses are usable. -/
def IPv4Network.hostAddrs (net : IPv4Network) : List Nat :=
  if 31 ≤ net.maskLen then
    (List.range (2 ^ (32 - net.maskLen))).map (fun i => net.netAddr + i)
  else
    (List.range (2 ^ (32 - net.maskLen) - 2)).map (fun i => net.netAddr + 1 + i)

/-- The usable host addresses, as dotted-quad strings (the sweep in
`enumerate_nodes` does `str(host)` on each). -/
def IPv4Network.hosts (net : IPv4Network) : List String :=
  net.hostAddrs.map ipToString

/-- `ReCon.HostInfo`: per-host persisted profile. -/
structure HostInfo where
  address : String
  username : String
  active : Bool
  consoles : List String
  networks : List IPv4Network
  nodes : List String
deriving DecidableEq, Repr

/-- `HostInfo.__init__(address, username)`. -/
def newHostInfo (address username : String) : HostInfo :=
  { address := address, username := username, active := true,
    consoles := [], networks := [], nodes := [] }

/-- Observable effects: event-handler invocations (`_call_handler`),
registry persistence (`_save_host_data`), remote command execution
(`exec_command`), key-pair generation and serialization, local
directory creation, child-process management. -/
inductive Act where
  | activity (msg : String)
  | hostEstablishment (is_ok : Bool) (error_type : Option String)
  | consolesLoaded (consoles : List String)
  | localNetworksLoaded (networks : List String)
  | nodeFound (node : String)
  | nodesLoaded
  | tunnelEstablished (port_mapping : List (String × Nat))
  | tunnelClosed
  | fatalError (msg : String)
  | save
  | execCmd (command : String)
  | generateKey (bits : Nat)
  | writeKeyFile (path : String)
  | makeDirs (path : String)
  | spawnProc (args : List String)
  | closeTransport
  | terminateTunnel
  | removeKeyFile (path : String)
  | taskkill
deriving DecidableEq, Repr

/-- The exception taxonomy of `model.py`:
`ReConAuthenticationError` / `ReConNetworkError` / `ReConSSHError` /
`ReConCommandError`; `unknown` stands for any other Python exception
(caught by the `except Exception` catch-all in `setup`). -/
inductive ReConError where
  | auth (msg : String)
  | network (msg : String)
  | ssh (msg : String)
  | command (command : String) (exit_code : Nat) (output error : String)
  | unknown (msg : String)
deriving DecidableEq, Repr

/-- `str(e)` for each modelled exception (`ReConCommandError.__init__`
passes a formatted message to `super().__init__`; the other classes
carry the wrapped exception text verbatim). -/
def errStr : ReConError → String
  | .auth m => m
  | .network m => m
  | .ssh m => m
  | .command c k _ _ =>
      "Command \x27" ++ c ++ "\x27 failed with exit code " ++ toString k
  | .unknown m => m

/-- Outcome of one remote `exec_command` call as produced by the
environment: either a transport-level failure (`paramiko.SSHException`
or `socket.error` while running the command) or a completed command
with decoded streams and exit status. -/
inductive ExecResult where
  | sshFail (msg : String)
  | done (output error : String) (code : Nat)
deriving Repr

/-- Outcome of `SSHClient.connect` as produced by the environment,
mirroring the except-clauses of `ReCon._connect`. -/
inductive ConnectOutcome where
  | ok
  | authException (msg : String)
  | timeoutOrSocket (msg : String)
  | sshException (msg : String)
  | otherException (msg : String)
deriving Repr

/-- Outcome of `_fill_prompt`: either a prompt string was received (a
`socket.timeout` is caught inside and yields the empty prompt), or
opening the session channel raised an `SSHException`. -/
inductive PromptOutcome where
  | received (prompt : String)
  | sshException (msg : String)
deriving Repr

/-- The environment: behaviour of the remote host, the OS and the
libraries, as observed by the modelled code. -/
structure Env where
  /-- result of each remote command (`exec_command`). -/
  exec : String → ExecResult
  /-- outcome of `SSHClient.connect`. -/
  connectResult : ConnectOutcome
  /-- outcome of `_fill_prompt`. -/
  promptResult : PromptOutcome
  /-- `rsa_key.get_name()`. -/
  keyName : String
  /-- `rsa_key.get_base64()`. -/
  keyB64 : String
  /-- path produced by `tempfile.mkstemp()`. -/
  tmpFile : String
  /-- `os.path.exists(ssh_dir)`. -/
  sshDirExists : Bool
  /-- `some msg` when `os.makedirs` raises `OSError`. -/
  mkdirError : Option String
  /-- ephemeral local port returned by the i-th loopback port-0 bind. -/
  ports : Nat → Nat
  /-- whether `ssh_client.close()` raises in `stop`. -/
  closeRaises : Bool
  /-- whether `ssh_tunnel_proc.terminate()` raises in `stop`. -/
  terminateRaises : Bool
  /-- whether `os.remove(key_file)` raises in `stop`. -/
  removeRaises : Bool

/-- Mutable state of a `ReCon` instance.  `current_host` holds the
pool key of the profile the Python object aliases (the Python
attribute is a reference to the `HostInfo` stored in `host_pool`). -/
structure ReConState where
  host_pool : List (String × HostInfo)
  current_host : Option String
  key_file : Option String
  ssh_tunnel_proc : Option (List String)
  prompt : String
deriving DecidableEq, Repr

/-- `host_pool[a]` (insertion-ordered dict lookup). -/
def poolLookup (pool : List (String × HostInfo)) (a : String) : Option HostInfo :=
  (pool.find? (fun kv => kv.1 == a)).map Prod.snd

/-- `host_pool.setdefault(a, v)`: keep an existing entry, else append. -/
def poolSetdefault (pool : List (String × HostInfo)) (a : String)
    (v : HostInfo) : List (String × HostInfo) :=
  if (pool.find? (fun kv => kv.1 == a)).isSome then pool else pool ++ [(a, v)]

/-- The profile `self.current_host` aliases, together with its pool
key; `none` when `current_host is None`. -/
def getCurrent (s : ReConState) : Option (String × HostInfo) :=
  match s.current_host with
  | none => none
  | some a =>
    match poolLookup s.host_pool a with
    | none => none
    | some hi => some (a, hi)

/-- In-place mutation of the aliased current profile: updating
`self.current_host` updates the pool entry it aliases. -/
def updateHost (s : ReConState) (a : String) (f : HostInfo → HostInfo) :
    ReConState :=
  { s with host_pool :=
      s.host_pool.map (fun kv => if kv.1 == a then (kv.1, f kv.2) else kv) }

/-- `ReCon.execute_command`: run a remote command, collect both
decoded streams and the exit status; a transport failure becomes a
`ReConSSHError`, a non-zero exit a `ReConCommandError` carrying the
command text, the exit code and both streams. -/
def execute_command (env : Env) (command : String) :
    List Act × Except ReConError (String × String × Nat) :=
  match env.exec command with
  | .sshFail m => ([Act.execCmd command], .error (.ssh m))
  | .done out err code =>
    if code ≠ 0 then ([Act.execCmd command], .error (.command command code out err))
    else ([Act.execCmd command], .ok (out, err, code))

/-- The reachability probe command of `enumerate_nodes`:
`ping -n 1 -w 25 {host}` (1 attempt, 25 ms timeout). -/
def pingCmd (h : String) : String := "ping -n 1 -w 25 " ++ h

/-- The reachability sweep loop of `enumerate_nodes`: probe every
host in order; a `ReConCommandError` (non-zero ping exit) is
swallowed, a `ReConSSHError` yields a non-fatal activity message;
reached hosts are appended to the node list as they are found.
Returns the emitted acts and the reached hosts, in order. -/
def sweep (env : Env) : List String → List Act × List String
  | [] => ([], [])
  | h :: rest =>
    let a0 := [Act.activity ("Querying... " ++ h)]
    let (ea, r) := execute_command env (pingCmd h)
    let (ra, rn) := sweep env rest
    match r with
    | .ok _ => (a0 ++ ea ++ [Act.nodeFound h] ++ ra, h :: rn)
    | .error (.command _ _ _ _) => (a0 ++ ea ++ ra, rn)
    | .error e =>
      (a0 ++ ea ++ [Act.activity ("Node enumeration failed: " ++ errStr e)] ++ ra, rn)

/-- Acts one probe of the sweep emits, as a function of the
environment response to the ping command. -/
def probeActs (env : Env) (h : String) : List Act :=
  [Act.activity ("Querying... " ++ h), Act.execCmd (pingCmd h)] ++
    match env.exec (pingCmd h) with
    | .done _ _ 0 => [Act.nodeFound h]
    | .done _ _ _ => []
    | .sshFail m => [Act.activity ("Node enumeration failed: " ++ m)]

/-- Whether the probe of `h` reached it (ping exited with status 0). -/
def probeHit (env : Env) (h : String) : Bool :=
  match env.exec (pingCmd h) with
  | .done _ _ 0 => true
  | _ => false

/-- `ReCon.enumerate_nodes`: with an empty node cache, sweep the
usable host range of the first cached network (or bail out with an
immediate `nodes_loaded` when no network is cached), persist once
after the sweep, and finish with `nodes_loaded`; with a populated
cache, replay `node_found` for every cached entry then emit
`nodes_loaded`. -/
def enumerate_nodes (env : Env) (s : ReConState) : List Act × ReConState :=
  match getCurrent s with
  | none => ([], s)  -- unreachable: Python dereferences current_host
  | some (a, hi) =>
    if hi.nodes = [] then
      match hi.networks with
      | [] => ([Act.activity "No networks available to enumerate nodes.",
                Act.nodesLoaded], s)
      | n :: _ =>
        let (sa, sn) := sweep env n.hosts
        (sa ++ [Act.save, Act.nodesLoaded],
         updateHost s a (fun h => { h with nodes := h.nodes ++ sn }))
    else (hi.nodes.map Act.nodeFound ++ [Act.nodesLoaded], s)

/-- The console enumeration command of `enumerate_consoles`. -/
def consolesCmd : String := "wmic path Win32_SerialPort get Caption"

/-- `[com.strip() for com in output.splitlines()[1:] if com.strip()]`
(`splitlines` modelled by splitting on the line feed; `strip` removes
the carriage return of CRLF output). -/
def parseConsoles (output : String) : List String :=
  (((output.splitOn "\n").drop 1).map String.trim).filter (fun l => l ≠ "")

/-- `ReCon.enumerate_consoles`: cache-aware console enumeration. -/
def enumerate_consoles (env : Env) (s : ReConState) : List Act × ReConState :=
  match getCurrent s with
  | none => ([], s)  -- unreachable: Python dereferences current_host
  | some (a, hi) =>
    if hi.consoles = [] then
      let a0 := [Act.activity "Enumerating consoles..."]
      let (ea, r) := execute_command env consolesCmd
      match r with
      | .ok (out, _, _) =>
        let lines := parseConsoles out
        let foundMsg :=
          if lines ≠ [] then
            Act.activity ("Found " ++ toString lines.length ++ " serial console(s)")
          else Act.activity "No serial consoles found"
        (a0 ++ ea ++ [foundMsg, Act.save, Act.consolesLoaded (hi.consoles ++ lines)],
         updateHost s a (fun h => { h with consoles := h.consoles ++ lines }))
      | .error e =>
        (a0 ++ ea ++ [Act.activity ("Console enumeration failed: " ++ errStr e),
          Act.consolesLoaded hi.consoles], s)
    else ([Act.consolesLoaded hi.consoles], s)

/-- Has every component of the quad and whether the mask is a valid
contiguous netmask: find p with mask = high-ones(p). -/
def maskToLen (m : Nat) : Option Nat :=
  (List.range 33).find? (fun p => m = 4294967296 - 2 ^ (32 - p))

/-- Parse a dotted quad into its 32-bit value (components ≤ 255). -/
def parseQuad (q : String) : Option Nat :=
  match q.splitOn "." with
  | [a, b, c, d] =>
    match a.toNat?, b.toNat?, c.toNat?, d.toNat? with
    | some a, some b, some c, some d =>
      if a ≤ 255 ∧ b ≤ 255 ∧ c ≤ 255 ∧ d ≤ 255 then
        some (a * 16777216 + b * 65536 + c * 256 + d)
      else none
    | _, _, _, _ => none
  | _ => none

/-- `IPv4Network(f"{ip}/{mask}", False)`: non-strict construction
masks the host bits away. -/
def mkNetwork (ip mask : String) : Option IPv4Network :=
  match parseQuad ip, parseQuad mask with
  | some i, some m =>
    match maskToLen m with
    | some p => some ⟨Nat.land i m, p⟩
    | none => none
  | _, _ => none

/-- Whether the network lies inside `base/len`. -/
def netWithin (net : IPv4Network) (base len : Nat) : Bool :=
  decide (base ≤ net.netAddr ∧
    net.netAddr + 2 ^ (32 - net.maskLen) - 1 ≤ base + 2 ^ (32 - len) - 1)

/-- Models `IPv4Network.is_private` (the IPv4 private ranges of the
`ipaddress` module relevant to LAN sweeps). -/
def isPrivate (net : IPv4Network) : Bool :=
  netWithin net 0 8 ||                 -- 0.0.0.0/8
  netWithin net 167772160 8 ||         -- 10.0.0.0/8
  netWithin net 2130706432 8 ||        -- 127.0.0.0/8
  netWithin net 2851995648 16 ||       -- 169.254.0.0/16
  netWithin net 2886729728 12 ||       -- 172.16.0.0/12
  netWithin net 3232235520 16 ||       -- 192.168.0.0/16
  netWithin net 3323068416 15 ||       -- 198.18.0.0/15
  netWithin net 4026531840 4           -- 240.0.0.0/4

/-- Models `IPv4Network.is_loopback` (inside 127.0.0.0/8). -/
def isLoopback (net : IPv4Network) : Bool :=
  netWithin net 2130706432 8

/-- One-or-more digits (`\d+`): the maximal digit run and remainder;
`none` when the text does not start with a digit. -/
def digitRun (cs : List Char) : Option (List Char × List Char) :=
  match cs.takeWhile Char.isDigit with
  | [] => none
  | ds => some (ds, cs.drop ds.length)

/-- One-or-more non-digits (`\D+`): remainder after the maximal
non-digit run; `none` when the text starts with a digit or is empty. -/
def skipNonDigits (cs : List Char) : Option (List Char) :=
  match cs with
  | [] => none
  | c :: _ => if c.isDigit then none else some (cs.dropWhile (fun d => !d.isDigit))

/-- A dotted quad (`\d+\.\d+\.\d+\.\d+`): the matched text and the
remainder. -/
def readQuad (cs : List Char) : Option (String × List Char) :=
  match digitRun cs with
  | none => none
  | some (d1, r1) =>
    match r1 with
    | '.' :: r1 =>
      match digitRun r1 with
      | none => none
      | some (d2, r2) =>
        match r2 with
        | '.' :: r2 =>
          match digitRun r2 with
          | none => none
          | some (d3, r3) =>
            match r3 with
            | '.' :: r3 =>
              match digitRun r3 with
              | none => none
              | some (d4, r4) =>
                some (String.mk (d1 ++ '.' :: d2 ++ '.' :: d3 ++ '.' :: d4), r4)
            | _ => none
        | _ => none
    | _ => none

/-- After the literal `IPv4 Address`, match
`\D+(\d+\.\d+\.\d+\.\d+)\r\s+Subnet Mask\D+(\d+\.\d+\.\d+\.\d+)`
and return the two captured quads plus the remainder. -/
def matchAfterTag (cs : List Char) : Option ((String × String) × List Char) :=
  match skipNonDigits cs with
  | none => none
  | some c1 =>
    match readQuad c1 with
    | none => none
    | some (ip, c2) =>
      match c2 with
      | '\r' :: c3 =>
        match c3 with
        | [] => none
        | w :: _ =>
          if !w.isWhitespace then none
          else
            let c4 := c3.dropWhile Char.isWhitespace
            if ("Subnet Mask".toList).isPrefixOf c4 then
              match skipNonDigits (c4.drop 11) with
              | none => none
              | some c5 =>
                match readQuad c5 with
                | none => none
                | some (mask, c6) => some ((ip, mask), c6)
            else none
      | _ => none

/-- Left-to-right non-overlapping scan for the `ipconfig` pattern,
modelling `re.findall` of `enumerate_local_networks`.  Fuel-based
recursion: every step consumes at least one character, so fuel equal
to the text length is enough. -/
def findPairsAux : Nat → List Char → List (String × String)
  | 0, _ => []
  | _, [] => []
  | fuel + 1, c :: rest =>
    if ("IPv4 Address".toList).isPrefixOf (c :: rest) then
      match matchAfterTag ((c :: rest).drop 12) with
      | some (pr, rem) => pr :: findPairsAux fuel rem
      | none => findPairsAux fuel rest
    else findPairsAux fuel rest

/-- All `(IPv4 address, subnet mask)` pairs of the `ipconfig` text. -/
def findPairs (output : String) : List (String × String) :=
  findPairsAux output.length output.toList

/-- The network-derivation loop of `enumerate_local_networks`: build
each network non-strictly and keep the private, non-loopback ones. -/
def parseNetworks (output : String) : List IPv4Network :=
  (findPairs output).filterMap fun pr =>
    match mkNetwork pr.1 pr.2 with
    | some net => if isPrivate net && !isLoopback net then some net else none
    | none => none

/-- `ReCon.enumerate_local_networks`: cache-aware local network
enumeration; always finishes by emitting the full list in CIDR
notation. -/
def enumerate_local_networks (env : Env) (s : ReConState) :
    List Act × ReConState :=
  match getCurrent s with
  | none => ([], s)  -- unreachable: Python dereferences current_host
  | some (a, hi) =>
    if hi.networks = [] then
      let a0 := [Act.activity "Enumerating local networks..."]
      let (ea, r) := execute_command env "ipconfig"
      match r with
      | .ok (out, _, _) =>
        let nets := parseNetworks out
        (a0 ++ ea ++ [Act.save,
          Act.localNetworksLoaded ((hi.networks ++ nets).map netToString)],
         updateHost s a (fun h => { h with networks := h.networks ++ nets }))
      | .error e =>
        (a0 ++ ea ++ [Act.activity ("Local network enumeration failed: " ++ errStr e),
          Act.localNetworksLoaded (hi.networks.map netToString)], s)
    else ([Act.localNetworksLoaded (hi.networks.map netToString)], s)

/-- The `authorized_keys` deployment command of `_deploy_key`. -/
def deployCmd (env : Env) (username : String) : String :=
  "echo " ++ env.keyName ++ " " ++ env.keyB64 ++ " > C:\\Users\\" ++ username
    ++ "\\.ssh\\authorized_keys"

/-- The `.ssh` directory path built by `_deploy_key`. -/
def sshDirPath (username : String) : String :=
  "C:\\Users\\" ++ username ++ "\\.ssh"

/-- Remote half of `_deploy_key`: run the `authorized_keys` command;
a `ReConSSHError` or `ReConCommandError` is caught and reported as a
`fatal_error` notification (degraded capability, not an abort). -/
def deployRemote (env : Env) (hi : HostInfo) (acts : List Act)
    (s : ReConState) : List Act × ReConState :=
  let (ea, r) := execute_command env (deployCmd env hi.username)
  match r with
  | .ok _ => (acts ++ ea, s)
  | .error _ =>
    (acts ++ ea ++
      [Act.fatalError "Failed to deploy SSH key. Most features will not work."], s)

/-- `ReCon._deploy_key`: generate a fresh 2048-bit RSA key pair,
serialize the private key to the `mkstemp` path (the session
credential), ensure the `.ssh` directory exists (an `OSError` is
reported as `fatal_error` and the function returns), then install the
public key remotely.  Never raises. -/
def deploy_key (env : Env) (s : ReConState) : List Act × ReConState :=
  match getCurrent s with
  | none => ([], s)  -- unreachable in the modelled flows
  | some (_, hi) =>
    let keyActs := [Act.generateKey 2048, Act.writeKeyFile env.tmpFile]
    let s1 : ReConState := { s with key_file := some env.tmpFile }
    if env.sshDirExists then
      deployRemote env hi keyActs s1
    else
      match env.mkdirError with
      | some _ =>
        (keyActs ++ [Act.makeDirs (sshDirPath hi.username),
          Act.fatalError "Failed to create .ssh directory. Most features will not work."],
         s1)
      | none =>
        deployRemote env hi (keyActs ++ [Act.makeDirs (sshDirPath hi.username)]) s1

/-- Result of `_connect`: the emitted acts, the state as mutated so
far (a Python exception does not roll mutations back), and the raised
`ReCon` error, if any. -/
structure ConnectResult where
  acts : List Act
  state : ReConState
  err : Option ReConError
deriving Repr

/-- `ReCon._connect`: open the transport (failures classified as
authentication / network / ssh / unknown), then register the host
profile via `setdefault` (first-write-wins), set it current, persist
the registry, read the prompt, and deploy the key. -/
def connect' (env : Env) (s : ReConState) (host username _password : String) :
    ConnectResult :=
  let a0 := [Act.activity ("Connecting to " ++ host ++ "...")]
  match env.connectResult with
  | .authException m => ⟨a0, s, some (.auth m)⟩
  | .timeoutOrSocket m => ⟨a0, s, some (.network m)⟩
  | .sshException m => ⟨a0, s, some (.ssh m)⟩
  | .otherException m => ⟨a0, s, some (.unknown m)⟩
  | .ok =>
    let s1 : ReConState :=
      { s with host_pool := poolSetdefault s.host_pool host (newHostInfo host username),
               current_host := some host }
    let a1 := a0 ++ [Act.save, Act.activity "Checking prompt..."]
    match env.promptResult with
    | .sshException m => ⟨a1, s1, some (.ssh m)⟩
    | .received p =>
      let s2 := { s1 with prompt := p }
      let a2 := a1 ++ [Act.activity "Deploying key..."]
      let (da, s3) := deploy_key env s2
      ⟨a2 ++ da, s3, none⟩

/-- `ReCon.setup`: call `_connect`; each classified failure emits one
`host_establishment(false, error_type)` and returns; on success emit
`host_establishment(true)` and run the enumerators (nodes only when
the node cache is already populated). -/
def setup (env : Env) (s : ReConState) (host username password : String) :
    List Act × ReConState :=
  let r := connect' env s host username password
  match r.err with
  | some (.auth m) =>
    (r.acts ++ [Act.activity ("Authentication failed: " ++ m),
      Act.hostEstablishment false (some "authentication")], r.state)
  | some (.network m) =>
    (r.acts ++ [Act.activity ("Network error connecting: " ++ m),
      Act.hostEstablishment false (some "network")], r.state)
  | some (.ssh m) =>
    (r.acts ++ [Act.activity ("SSH error connecting: " ++ m),
      Act.hostEstablishment false (some "ssh")], r.state)
  | some (.command c k o e) =>
    (r.acts ++ [Act.activity ("Unexpected error connecting: " ++ errStr (.command c k o e)),
      Act.hostEstablishment false (some "unknown")], r.state)
  | some (.unknown m) =>
    (r.acts ++ [Act.activity ("Unexpected error connecting: " ++ m),
      Act.hostEstablishment false (some "unknown")], r.state)
  | none =>
    let a0 := r.acts ++ [Act.hostEstablishment true none]
    let (ca, s1) := enumerate_consoles env r.state
    let (na, s2) := enumerate_local_networks env s1
    let (xa, s3) :=
      match getCurrent s2 with
      | some (_, hi) => if hi.nodes ≠ [] then enumerate_nodes env s2 else ([], s2)
      | none => ([], s2)
    (a0 ++ ca ++ na ++ xa, s3)

/-- The argument list of the tunnel subprocess: one `ssh -N` process
with one `-L localPort:node:443` spec per cached node, authenticated
via the provisioned key. -/
def tunnelArgs (env : Env) (kf : String) (hi : HostInfo) : List String :=
  ["ssh", "-N", "-i", kf, hi.username ++ "@" ++ hi.address] ++
    hi.nodes.enum.flatMap (fun p =>
      ["-L", toString (env.ports p.1) ++ ":" ++ p.2 ++ ":443"])

/-- `port_mapping[node] = local_port` (dict insertion). -/
def dictInsert (m : List (String × Nat)) (k : String) (v : Nat) :
    List (String × Nat) :=
  if (m.find? (fun kv => kv.1 == k)).isSome then
    m.map (fun kv => if kv.1 == k then (k, v) else kv)
  else m ++ [(k, v)]

/-- The node → local-port dict built while assembling the args. -/
def tunnelMapping (env : Env) (nodes : List String) : List (String × Nat) :=
  nodes.enum.foldl (fun m p => dictInsert m p.2 (env.ports p.1)) []

/-- `ReCon.toggle_https_tunnel`: a strict two-state flip on the
process handle.  Absent: allocate one ephemeral loopback port per
cached node, launch a single background ssh process with the full
argument list and emit `tunnel_established` with the mapping.
Present: terminate the process, drop the handle, emit
`tunnel_closed`. -/
def toggle_https_tunnel (env : Env) (s : ReConState) : List Act × ReConState :=
  match s.ssh_tunnel_proc with
  | some _ =>
    ([Act.activity "Closing tunnel...", Act.terminateTunnel, Act.tunnelClosed],
     { s with ssh_tunnel_proc := none })
  | none =>
    match getCurrent s, s.key_file with
    | some (_, hi), some kf =>
      let args := tunnelArgs env kf hi
      ([Act.activity "Establishing tunnel...", Act.spawnProc args,
        Act.tunnelEstablished (tunnelMapping env hi.nodes)],
       { s with ssh_tunnel_proc := some args })
    | _, _ => ([], s)  -- unreachable: Python would fail on the missing value

/-- `re.search(r"(COM\d+)", text)`: leftmost `COM` followed by a
maximal non-empty digit run. -/
def findCOM : List Char → Option String
  | [] => none
  | c :: rest =>
    match c, rest with
    | 'C', 'O' :: 'M' :: r2 =>
      match r2.takeWhile Char.isDigit with
      | [] => findCOM rest
      | ds => some (String.mk ('C' :: 'O' :: 'M' :: ds))
    | _, _ => findCOM rest

/-- `ReCon.spawn_console`: extract the COM port from the descriptor
(no match: non-fatal activity, nothing spawned), then launch a
detached terminal running plink over ssh with the provisioned key. -/
def spawn_console (s : ReConState) (console : String) : List Act :=
  match findCOM console.toList with
  | none => [Act.activity "No COM port found in console name."]
  | some com =>
    match getCurrent s, s.key_file with
    | some (_, hi), some kf =>
      let title := "[ReCon]sole serial " ++ com ++ " on " ++ hi.address
      let post := "plink -serial " ++ com ++ " -sercfg 115200 8,n,1,X"
      [Act.spawnProc ["ssh", "-o StrictHostKeyChecking=no", "-t", "-i", kf,
        hi.username ++ "@" ++ hi.address,
        "powershell -Command \"$Host.UI.RawUI.WindowTitle = \x27" ++ title
          ++ "\x27; $Host.UI.RawUI.ForegroundColor = \x27darkcyan\x27; " ++ post ++ "\""]]
    | _, _ => []  -- unreachable: Python would fail on the missing value

/-- `ReCon.spawn_shell`: launch a detached interactive powershell
over ssh with the provisioned key. -/
def spawn_shell (s : ReConState) : List Act :=
  match getCurrent s, s.key_file with
  | some (_, hi), some kf =>
    let title := "[ReCon]sole powershell on " ++ hi.address
    [Act.spawnProc ["ssh", "-o StrictHostKeyChecking=no", "-t", "-i", kf,
      hi.username ++ "@" ++ hi.address,
      "powershell -NoExit -Command \"$Host.UI.RawUI.WindowTitle = \x27" ++ title
        ++ "\x27; $Host.UI.RawUI.ForegroundColor = \x27green\x27;\""]]
  | _, _ => []  -- unreachable: Python would fail on the missing value

/-- `ReCon.stop`: close the transport (the client object is always
truthy, so this is always attempted), terminate the tunnel process if
present, delete the provisioned key file if present, then bulk-kill
the spawned consoles by window title.  The Python body has no
exception handling, so a step that raises prevents the remaining
steps; `some msg` reports such a propagated exception. -/
def stop (env : Env) (s : ReConState) : List Act × Option String :=
  let acts := [Act.closeTransport]
  if env.closeRaises then (acts, some "close raised") else
  let acts := acts ++
    (match s.ssh_tunnel_proc with | some _ => [Act.terminateTunnel] | none => [])
  if s.ssh_tunnel_proc.isSome && env.terminateRaises then (acts, some "terminate raised") else
  let acts := acts ++
    (match s.key_file with | some p => [Act.removeKeyFile p] | none => [])
  if s.key_file.isSome && env.removeRaises then (acts, some "remove raised") else
  (acts ++ [Act.taskkill], none)

/-- Project an act to the remote command it issues, if any. -/
def execCmdOf : Act → Option String
  | .execCmd c => some c
  | _ => none

/-- Project an act to the `node_found` address it carries, if any. -/
def nodeFoundOf : Act → Option String
  | .nodeFound n => some n
  | _ => none

/-- Project an act to the `host_establishment` payload, if any. -/
def hostEstOf : Act → Option (Bool × Option String)
  | .hostEstablishment ok t => some (ok, t)
  | _ => none

/-- A neutral concrete environment for the executable scenarios. -/
def envBase : Env :=
  { exec := fun _ => .done "" "" 1
    connectResult := .ok
    promptResult := .received ""
    keyName := "ssh-rsa"
    keyB64 := "AAAB3Nz"
    tmpFile := "/tmp/reconkey"
    sshDirExists := true
    mkdirError := none
    ports := fun i => 50000 + i
    closeRaises := false
    terminateRaises := false
    removeRaises := false }

/-- Environment of the `10.0.0.0/30` sweep scenario: only `10.0.0.1`
answers the ping. -/
def env30 : Env :=
  { envBase with
    exec := fun c => if c = pingCmd "10.0.0.1" then .done "" "" 0 else .done "" "" 1 }

/-- The `10.0.0.0/30` network (network address `10.0.0.0`). -/
def net30 : IPv4Network := ⟨167772160, 30⟩

/-- A connected host profile whose network cache holds `10.0.0.0/30`
and whose node cache is empty. -/
def host30 : HostInfo :=
  { address := "10.0.0.250", username := "admin", active := true,
    consoles := [], networks := [net30], nodes := [] }

/-- State with `host30` registered and current. -/
def state30 : ReConState :=
  { host_pool := [("10.0.0.250", host30)]
    current_host := some "10.0.0.250"
    key_file := none
    ssh_tunnel_proc := none
    prompt := "" }

/-- The pristine state of a freshly started engine with no persisted
registry. -/
def state0 : ReConState :=
  { host_pool := [], current_host := none, key_file := none,
    ssh_tunnel_proc := none, prompt := "" }

/-- Environment where the transport connects but opening the prompt
channel raises `SSHException`. -/
def envPromptFail : Env :=
  { envBase with promptResult := .sshException "SSH session not active" }

/-- A profile with all three caches populated, for the cached-branch
scenarios. -/
def hostCached : HostInfo :=
  { address := "192.168.1.7", username := "op", active := true,
    consoles := ["USB Serial (COM6)"], networks := [⟨3232235776, 24⟩],
    nodes := ["192.168.1.10", "192.168.1.20"] }

/-- State with `hostCached` registered and current, key deployed,
no tunnel. -/
def stateCached : ReConState :=
  { host_pool := [("192.168.1.7", hostCached)]
    current_host := some "192.168.1.7"
    key_file := some "/tmp/reconkey"
    ssh_tunnel_proc := none
    prompt := "" }

/-- Environment where the `.ssh` directory creation fails. -/
def envMkdirFail : Env :=
  { envBase with sshDirExists := false, mkdirError := some "Access is denied" }

/-- Environment where deleting the key file raises (for example the
file was already removed by an earlier `stop`). -/
def envRemoveFail : Env :=
  { envBase with removeRaises := true }

/-- Environment where probing `10.0.0.1` hits a transport failure and
every other probe gets the non-zero "unreachable" exit. -/
def envC7 : Env :=
  { envBase with
    exec := fun c => if c = pingCmd "10.0.0.1" then .sshFail "conn reset"
                     else .done "" "" 1 }

/-- Environment where every remote command exits with status 137. -/
def envCmd137 : Env :=
  { envBase with exec := fun _ => .done "partial out" "oom-killed" 137 }

/-- A previously-registered profile whose stored username is
`alice`. -/
def hostOld : HostInfo :=
  { address := "10.0.0.9", username := "alice", active := true,
    consoles := [], networks := [], nodes := ["10.0.0.5"] }

/-- State where `hostOld` is registered but no session is up. -/
def stateOld : ReConState :=
  { host_pool := [("10.0.0.9", hostOld)]
    current_host := none
    key_file := none
    ssh_tunnel_proc := none
    prompt := "" }

/-! Helper lemmas. -/

/-- The sweep emits, per host in order, exactly the probe acts, and
collects exactly the reached hosts, in order. -/
theorem sweep_spec (env : Env) (hs : List String) :
    sweep env hs = (hs.flatMap (probeActs env), hs.filter (probeHit env)) := by
  induction hs with
  | nil => rfl
  | cons h rest ih =>
    simp only [sweep, execute_command, List.flatMap_cons, List.filter_cons, ih]
    cases hx : env.exec (pingCmd h) with
    | sshFail m => simp [probeActs, probeHit, hx, errStr]
    | done o e c =>
      cases c with
      | zero => simp [probeActs, probeHit, hx]
      | succ k => simp [probeActs, probeHit, hx]

/-- Each probe issues exactly one remote command: the ping. -/
theorem probeActs_execCmds (env : Env) (h : String) :
    (probeActs env h).filterMap execCmdOf = [pingCmd h] := by
  simp only [probeActs]
  cases hx : env.exec (pingCmd h) with
  | sshFail m => simp [execCmdOf]
  | done o e c => cases c <;> simp [execCmdOf]

/-- Each probe emits `node_found` exactly when the host answered. -/
theorem probeActs_nodeFounds (env : Env) (h : String) :
    (probeActs env h).filterMap nodeFoundOf =
      if probeHit env h then [h] else [] := by
  cases hx : env.exec (pingCmd h) with
  | sshFail m => simp [probeActs, probeHit, hx, nodeFoundOf]
  | done o e c => cases c <;> simp [probeActs, probeHit, hx, nodeFoundOf]

/-- A probe that got a non-zero ping exit emits only the query
activity and the command — the failure is swallowed. -/
theorem probeActs_swallowed (env : Env) (h : String) (o e : String) (c : Nat)
    (hx : env.exec (pingCmd h) = .done o e c) (hc : c ≠ 0) :
    probeActs env h = [Act.activity ("Querying... " ++ h), Act.execCmd (pingCmd h)] := by
  cases c with
  | zero => exact absurd rfl hc
  | succ k => simp [probeActs, hx]

/-- A probe that hit a transport failure appends the non-fatal
activity message. -/
theorem probeActs_sshFail (env : Env) (h : String) (m : String)
    (hx : env.exec (pingCmd h) = .sshFail m) :
    probeActs env h = [Act.activity ("Querying... " ++ h), Act.execCmd (pingCmd h),
      Act.activity ("Node enumeration failed: " ++ m)] := by
  simp [probeActs, hx]

theorem filterMap_flatMap' {α β γ : Type} (l : List α) (f : α → List β)
    (g : β → Option γ) :
    (l.flatMap f).filterMap g = l.flatMap fun x => (f x).filterMap g := by
  induction l with
  | nil => rfl
  | cons x xs ih => simp [List.flatMap_cons, List.filterMap_append, ih]

theorem flatMap_if_filter {α : Type} (l : List α) (p : α → Bool) :
    (l.flatMap fun x => if p x then [x] else []) = l.filter p := by
  induction l with
  | nil => rfl
  | cons x xs ih =>
    by_cases h : p x <;> simp [List.filter_cons, h, ih]

/-- `setdefault` keeps an existing entry untouched. -/
theorem poolSetdefault_of_some (pool : List (String × HostInfo)) (a : String)
    (v hi : HostInfo) (h : poolLookup pool a = some hi) :
    poolSetdefault pool a v = pool := by
  unfold poolSetdefault
  unfold poolLookup at h
  cases hf : pool.find? (fun kv => kv.1 == a) with
  | none => rw [hf] at h; simp at h
  | some kv => simp [hf]

/-- `setdefault` appends a fresh entry. -/
theorem poolSetdefault_of_none (pool : List (String × HostInfo)) (a : String)
    (v : HostInfo) (h : poolLookup pool a = none) :
    poolSetdefault pool a v = pool ++ [(a, v)] := by
  unfold poolSetdefault
  unfold poolLookup at h
  cases hf : pool.find? (fun kv => kv.1 == a) with
  | none => simp [hf]
  | some kv => rw [hf] at h; simp at h

/-- Looking up the key just `setdefault`-ed yields the old value when
present, the new one otherwise. -/
theorem poolLookup_setdefault_self (pool : List (String × HostInfo)) (a : String)
    (v : HostInfo) :
    poolLookup (poolSetdefault pool a v) a = some ((poolLookup pool a).getD v) := by
  cases h : poolLookup pool a with
  | some hi => rw [poolSetdefault_of_some pool a v hi h, h]; rfl
  | none =>
    rw [poolSetdefault_of_none pool a v h]
    unfold poolLookup at h ⊢
    cases hf : pool.find? (fun kv => kv.1 == a) with
    | some kv => rw [hf] at h; simp at h
    | none => simp [List.find?_append, hf]

theorem find?_cons_true {α : Type} (p : α → Bool) (x : α) (l : List α)
    (h : p x = true) : (x :: l).find? p = some x := by
  simp [List.find?, h]

theorem find?_cons_false {α : Type} (p : α → Bool) (x : α) (l : List α)
    (h : p x = false) : (x :: l).find? p = l.find? p := by
  simp [List.find?, h]

/-- Lookup after an aliased in-place update of the entry at `a`. -/
theorem poolLookup_map_update (pool : List (String × HostInfo)) (a : String)
    (f : HostInfo → HostInfo) :
    poolLookup (pool.map fun kv => if kv.1 == a then (kv.1, f kv.2) else kv) a
      = (poolLookup pool a).map f := by
  induction pool with
  | nil => rfl
  | cons kv rest ih =>
    unfold poolLookup at ih ⊢
    rw [List.map_cons]
    rcases Bool.eq_false_or_eq_true (kv.1 == a) with h | h
    · have hif : (if (kv.1 == a) = true then (kv.1, f kv.2) else kv) = (kv.1, f kv.2) := by
        rw [h]; simp
      rw [hif,
        find?_cons_true (fun y : String × HostInfo => y.1 == a) (kv.1, f kv.2) _ h,
        find?_cons_true (fun y : String × HostInfo => y.1 == a) kv _ h]
      rfl
    · have hif : (if (kv.1 == a) = true then (kv.1, f kv.2) else kv) = kv := by
        rw [h]; simp
      rw [hif,
        find?_cons_false (fun y : String × HostInfo => y.1 == a) kv _ h,
        find?_cons_false (fun y : String × HostInfo => y.1 == a) kv _ h]
      exact ih

/-- Unpacking `getCurrent`. -/
theorem getCurrent_eq (s : ReConState) (a : String) (hi : HostInfo) :
    getCurrent s = some (a, hi) ↔
      s.current_host = some a ∧ poolLookup s.host_pool a = some hi := by
  unfold getCurrent
  cases hc : s.current_host with
  | none => simp
  | some b =>
    by_cases hba : b = a
    · subst hba
      cases hl : poolLookup s.host_pool b with
      | none => simp [hl]
      | some v => simp [hl]
    · cases hl : poolLookup s.host_pool b with
      | none => simp [hl, hba]
      | some v => simp [hl, hba]

/-- An aliased in-place update of the current profile. -/
theorem getCurrent_updateHost (s : ReConState) (a : String) (hi : HostInfo)
    (f : HostInfo → HostInfo) (hg : getCurrent s = some (a, hi)) :
    getCurrent (updateHost s a f) = some (a, f hi) := by
  rw [getCurrent_eq] at hg ⊢
  obtain ⟨h1, h2⟩ := hg
  refine ⟨h1, ?_⟩
  show poolLookup (s.host_pool.map fun kv => if kv.1 == a then (kv.1, f kv.2) else kv) a
    = some (f hi)
  rw [poolLookup_map_update, h2]
  rfl

/-- `deploy_key` with a current host only sets the session key file;
the registry, current host, tunnel handle and prompt are untouched. -/
theorem deploy_key_state_some (env : Env) (s : ReConState)
    (pr : String × HostInfo) (hg : getCurrent s = some pr) :
    (deploy_key env s).2 = { s with key_file := some env.tmpFile } := by
  unfold deploy_key deployRemote
  rw [hg]
  cases env.sshDirExists with
  | true =>
    cases hx : env.exec (deployCmd env pr.2.username) with
    | sshFail m => simp [execute_command, hx]
    | done o e c => cases c <;> simp [execute_command, hx]
  | false =>
    cases env.mkdirError with
    | some m => rfl
    | none =>
      cases hx : env.exec (deployCmd env pr.2.username) with
      | sshFail m => simp [execute_command, hx]
      | done o e c => cases c <;> simp [execute_command, hx]

theorem flatMap_single {α β : Type} (l : List α) (g : α → β) :
    (l.flatMap fun x => [g x]) = l.map g := by
  induction l with
  | nil => rfl
  | cons x xs ih => simp [List.flatMap_cons, ih]

/-- The main-branch characterization of `enumerate_nodes`: with an
empty node cache and a non-empty network cache, the emitted acts are
the per-host probe acts of the first network's host range followed by
one persistence and the final `nodes_loaded`, and the cache receives
exactly the reached hosts, in order. -/
theorem enumerate_nodes_sweep_eq (env : Env) (s : ReConState) (a : String)
    (hi : HostInfo) (n : IPv4Network) (rest : List IPv4Network)
    (hcur : getCurrent s = some (a, hi))
    (hnodes : hi.nodes = [])
    (hnets : hi.networks = n :: rest) :
    enumerate_nodes env s
      = (n.hosts.flatMap (probeActs env) ++ [Act.save, Act.nodesLoaded],
         updateHost s a (fun h =>
           { h with nodes := h.nodes ++ n.hosts.filter (probeHit env) })) := by
  unfold enumerate_nodes
  rw [hcur]
  simp only [hnodes, hnets, sweep_spec]
  rfl

/-- Pairwise-increasing host ranges. -/
theorem hostAddrs_ascending (n : IPv4Network) :
    n.hostAddrs.Pairwise (· < ·) := by
  have hpw : ∀ (base k : Nat),
      ((List.range k).map (fun i => base + i)).Pairwise (· < ·) := by
    intro base k
    exact (List.pairwise_lt_range k).map _ (fun a b hab => by omega)
  unfold IPv4Network.hostAddrs
  split
  · exact hpw _ _
  · exact hpw _ _

/-- `deploy_key` never persists the registry. -/
theorem deploy_key_no_save (env : Env) (s : ReConState) :
    Act.save ∉ (deploy_key env s).1 := by
  unfold deploy_key deployRemote
  cases hg : getCurrent s with
  | none => simp
  | some pr =>
    cases env.sshDirExists with
    | true =>
      cases hx : env.exec (deployCmd env pr.2.username) with
      | sshFail m => simp [execute_command, hx]
      | done o e c => cases c <;> simp [execute_command, hx]
    | false =>
      cases env.mkdirError with
      | some m => simp
      | none =>
        cases hx : env.exec (deployCmd env pr.2.username) with
        | sshFail m => simp [execute_command, hx]
        | done o e c => cases c <;> simp [execute_command, hx]

/-- `deploy_key` changes no state field but the key file. -/
theorem deploy_key_fields (env : Env) (s : ReConState) :
    (deploy_key env s).2.host_pool = s.host_pool
    ∧ (deploy_key env s).2.current_host = s.current_host
    ∧ (deploy_key env s).2.ssh_tunnel_proc = s.ssh_tunnel_proc := by
  cases hg : getCurrent s with
  | none =>
    unfold deploy_key
    rw [hg]
    exact ⟨rfl, rfl, rfl⟩
  | some pr =>
    rw [deploy_key_state_some env s pr hg]
    exact ⟨rfl, rfl, rfl⟩

/-- With the `.ssh` directory present, `deploy_key` issues the
`authorized_keys` command built from the stored username. -/
theorem deploy_key_execCmd_mem (env : Env) (s : ReConState)
    (pr : String × HostInfo) (hg : getCurrent s = some pr)
    (hd : env.sshDirExists = true) :
    Act.execCmd (deployCmd env pr.2.username) ∈ (deploy_key env s).1 := by
  unfold deploy_key deployRemote
  rw [hg, hd]
  cases hx : env.exec (deployCmd env pr.2.username) with
  | sshFail m => simp [execute_command, hx]
  | done o e c => cases c <;> simp [execute_command, hx]

/-- After a successful transport connect, `_connect` has registered
the profile via `setdefault`, made it current, and left the tunnel
handle alone. -/
theorem connect_ok_state (env : Env) (s : ReConState) (h u p : String)
    (hok : env.connectResult = .ok) :
    (connect' env s h u p).state.host_pool
        = poolSetdefault s.host_pool h (newHostInfo h u)
    ∧ (connect' env s h u p).state.current_host = some h
    ∧ (connect' env s h u p).state.ssh_tunnel_proc = s.ssh_tunnel_proc := by
  unfold connect'
  rw [hok]
  cases hpr : env.promptResult with
  | sshException m => exact ⟨rfl, rfl, rfl⟩
  | received q =>
    simp only []
    have hf := deploy_key_fields env
      { s with host_pool := poolSetdefault s.host_pool h (newHostInfo h u),
               current_host := some h, prompt := q }
    exact ⟨hf.1, hf.2.1, hf.2.2⟩

/-- After a successful transport connect, the registry was persisted
exactly once. -/
theorem connect_ok_save (env : Env) (s : ReConState) (h u p : String)
    (hok : env.connectResult = .ok) :
    (connect' env s h u p).acts.count Act.save = 1 := by
  unfold connect'
  rw [hok]
  cases hpr : env.promptResult with
  | sshException m => simp
  | received q =>
    simp only []
    rw [List.count_append]
    have hz := List.count_eq_zero.mpr (deploy_key_no_save env
      { s with host_pool := poolSetdefault s.host_pool h (newHostInfo h u),
               current_host := some h, prompt := q })
    rw [hz]
    simp

/-- A successful connect with a received prompt raises nothing. -/
theorem connect_ok_err (env : Env) (s : ReConState) (h u p q : String)
    (hok : env.connectResult = .ok) (hpr : env.promptResult = .received q) :
    (connect' env s h u p).err = none := by
  unfold connect'
  rw [hok, hpr]

/-- After a successful transport connect, the current profile resolves
(to the old profile when the address was known, else to the fresh
one). -/
theorem connect_ok_getCurrent (env : Env) (s : ReConState) (h u p : String)
    (hok : env.connectResult = .ok) :
    getCurrent (connect' env s h u p).state
      = some (h, (poolLookup s.host_pool h).getD (newHostInfo h u)) := by
  have hst := connect_ok_state env s h u p hok
  rw [getCurrent_eq]
  refine ⟨hst.2.1, ?_⟩
  rw [hst.1, poolLookup_setdefault_self]

/-- The intermediate state of `_connect` right before key
deployment. -/
def connectMid (s : ReConState) (host username q : String) :
    ReConState :=
  { s with host_pool := poolSetdefault s.host_pool host (newHostInfo host username),
           current_host := some host, prompt := q }

/-- The current profile of the pre-deployment state resolves. -/
theorem connectMid_getCurrent (s : ReConState) (h u q : String) :
    getCurrent (connectMid s h u q)
      = some (h, (poolLookup s.host_pool h).getD (newHostInfo h u)) := by
  rw [getCurrent_eq]
  exact ⟨rfl, poolLookup_setdefault_self s.host_pool h (newHostInfo h u)⟩

/-- The fully successful `_connect` decomposes into the pre-deployment
acts followed by the `deploy_key` acts on the pre-deployment state. -/
theorem connect_ok_decomp (env : Env) (s : ReConState) (h u p q : String)
    (hok : env.connectResult = .ok) (hpr : env.promptResult = .received q) :
    (connect' env s h u p).acts
        = [Act.activity ("Connecting to " ++ h ++ "..."), Act.save,
           Act.activity "Checking prompt...", Act.activity "Deploying key..."]
          ++ (deploy_key env (connectMid s h u q)).1
    ∧ (connect' env s h u p).state
        = (deploy_key env (connectMid s h u q)).2 := by
  unfold connect'
  rw [hok, hpr]
  exact ⟨rfl, rfl⟩

/-- After a fully successful connect the session key file is set. -/
theorem connect_ok_keyfile (env : Env) (s : ReConState) (h u p q : String)
    (hok : env.connectResult = .ok) (hpr : env.promptResult = .received q) :
    (connect' env s h u p).state.key_file = some env.tmpFile := by
  rw [(connect_ok_decomp env s h u p q hok hpr).2,
    deploy_key_state_some env (connectMid s h u q)
      (h, (poolLookup s.host_pool h).getD (newHostInfo h u))
      (connectMid_getCurrent s h u q)]

/-- `enumerate_consoles` always finishes with a `consoles_loaded`
notification. -/
theorem enumerate_consoles_emits (env : Env) (s : ReConState) (a : String)
    (hi : HostInfo) (hcur : getCurrent s = some (a, hi)) :
    ∃ cs, Act.consolesLoaded cs ∈ (enumerate_consoles env s).1 := by
  unfold enumerate_consoles
  rw [hcur]
  by_cases hc : hi.consoles = []
  · cases hx : env.exec consolesCmd with
    | sshFail m => exact ⟨hi.consoles, by simp [execute_command, hx, hc]⟩
    | done o e c =>
      cases c with
      | zero => exact ⟨hi.consoles ++ parseConsoles o, by simp [execute_command, hx, hc]⟩
      | succ k => exact ⟨hi.consoles, by simp [execute_command, hx, hc]⟩
  · exact ⟨hi.consoles, by simp [hc]⟩

/-- Shape of the fully successful `setup` trace: the connect acts,
the positive `host_establishment`, the console-enumeration acts, then
the rest. -/
theorem setup_success_shape (env : Env) (s : ReConState) (h u p q : String)
    (hok : env.connectResult = .ok) (hpr : env.promptResult = .received q) :
    ∃ tail, (setup env s h u p).1
      = (connect' env s h u p).acts ++ [Act.hostEstablishment true none]
        ++ (enumerate_consoles env (connect' env s h u p).state).1 ++ tail := by
  unfold setup
  simp only [connect_ok_err env s h u p q hok hpr]
  exact ⟨_, List.append_assoc _ _ _⟩

/-! Claim theorems. -/

/-- C1: with an empty node cache and a non-empty network cache,
`enumerate_nodes` sweeps every usable host of the first cached network
in ascending address order, probes each exactly once with
`ping -n 1 -w 25`, emits `node_found` per reached address in discovery
order before the final `nodes_loaded`, appends exactly the reached
addresses to the cache, and persists once after the sweep; with an
empty network cache it emits `nodes_loaded` immediately and probes
nothing; on `10.0.0.0/30` with only `10.0.0.1` answering, `node_found`
fires once with `10.0.0.1` before `nodes_loaded` and the cache ends as
`["10.0.0.1"]`. -/
theorem c1_enumerate_nodes_sweep (env : Env) (s : ReConState) (a : String)
    (hi : HostInfo) (n : IPv4Network) (rest : List IPv4Network)
    (hcur : getCurrent s = some (a, hi))
    (hnodes : hi.nodes = [])
    (hnets : hi.networks = n :: rest) :
    (enumerate_nodes env s).1
        = n.hosts.flatMap (probeActs env) ++ [Act.save, Act.nodesLoaded]
    ∧ (enumerate_nodes env s).1.filterMap execCmdOf = n.hosts.map pingCmd
    ∧ (enumerate_nodes env s).1.filterMap nodeFoundOf
        = n.hosts.filter (probeHit env)
    ∧ getCurrent (enumerate_nodes env s).2
        = some (a, { hi with nodes := n.hosts.filter (probeHit env) })
    ∧ (enumerate_nodes env s).1.count Act.save = 1
    ∧ n.hostAddrs.Pairwise (· < ·)
    ∧ (∀ (s' : ReConState) (a' : String) (hi' : HostInfo),
        getCurrent s' = some (a', hi') → hi'.nodes = [] → hi'.networks = [] →
        enumerate_nodes env s'
          = ([Act.activity "No networks available to enumerate nodes.",
              Act.nodesLoaded], s'))
    ∧ enumerate_nodes env30 state30
        = ([Act.activity ("Querying... " ++ "10.0.0.1"),
            Act.execCmd (pingCmd "10.0.0.1"),
            Act.nodeFound "10.0.0.1",
            Act.activity ("Querying... " ++ "10.0.0.2"),
            Act.execCmd (pingCmd "10.0.0.2"),
            Act.save, Act.nodesLoaded],
           { state30 with host_pool :=
               [("10.0.0.250", { host30 with nodes := ["10.0.0.1"] })] }) := by
  have hmain := enumerate_nodes_sweep_eq env s a hi n rest hcur hnodes hnets
  refine ⟨?_, ?_, ?_, ?_, ?_, ?_, ?_, ?_⟩
  · rw [hmain]
  · rw [hmain]
    simp only [List.filterMap_append, filterMap_flatMap']
    simp only [probeActs_execCmds, flatMap_single]
    simp [execCmdOf]
  · rw [hmain]
    simp only [List.filterMap_append, filterMap_flatMap']
    simp only [probeActs_nodeFounds, flatMap_if_filter]
    simp [nodeFoundOf]
  · rw [hmain]
    have := getCurrent_updateHost s a hi
      (fun h => { h with nodes := h.nodes ++ n.hosts.filter (probeHit env) }) hcur
    rw [this]
    simp [hnodes]
  · rw [hmain]
    have hz : (n.hosts.flatMap (probeActs env)).count Act.save = 0 := by
      rw [List.count_eq_zero]
      intro hmem
      rcases List.mem_flatMap.mp hmem with ⟨h, _, hin⟩
      revert hin
      cases hx : env.exec (pingCmd h) with
      | sshFail m => simp [probeActs, hx]
      | done o e c => cases c <;> simp [probeActs, hx]
    rw [List.count_append, hz]
    rfl
  · exact hostAddrs_ascending n
  · intro s' a' hi' h1 h2 h3
    unfold enumerate_nodes
    rw [h1]
    simp [h2, h3]
  · decide

/-- C1 witness: the hypotheses hold of the concrete `10.0.0.0/30`
scenario, and the theorem instantiates there. -/
theorem c1_enumerate_nodes_sweep_witness :
    (getCurrent state30 = some ("10.0.0.250", host30)
      ∧ host30.nodes = [] ∧ host30.networks = net30 :: [])
    ∧ (enumerate_nodes env30 state30).1.filterMap execCmdOf
        = net30.hosts.map pingCmd :=
  ⟨⟨by decide, by decide, by decide⟩,
   (c1_enumerate_nodes_sweep env30 state30 "10.0.0.250" host30 net30 []
      (by decide) (by decide) (by decide)).2.1⟩

/-- C7: during the sweep a non-zero ping exit is swallowed (only the
query activity and the command are emitted, nothing is surfaced, the
address is not cached), a transport-level probe failure is reported as
a non-fatal activity message, every address is still probed (the sweep
never aborts), and the trace still ends with `nodes_loaded`. -/
theorem c7_sweep_error_handling (env : Env) (s : ReConState) (a : String)
    (hi : HostInfo) (n : IPv4Network) (rest : List IPv4Network)
    (hcur : getCurrent s = some (a, hi))
    (hnodes : hi.nodes = [])
    (hnets : hi.networks = n :: rest) :
    (∀ (h o e : String) (c : Nat),
        env.exec (pingCmd h) = .done o e c → c ≠ 0 →
        probeActs env h
            = [Act.activity ("Querying... " ++ h), Act.execCmd (pingCmd h)]
          ∧ h ∉ n.hosts.filter (probeHit env))
    ∧ (∀ (h m : String), h ∈ n.hosts → env.exec (pingCmd h) = .sshFail m →
        Act.activity ("Node enumeration failed: " ++ m) ∈ (enumerate_nodes env s).1)
    ∧ (enumerate_nodes env s).1.filterMap execCmdOf = n.hosts.map pingCmd
    ∧ getCurrent (enumerate_nodes env s).2
        = some (a, { hi with nodes := n.hosts.filter (probeHit env) })
    ∧ (∃ pre, (enumerate_nodes env s).1 = pre ++ [Act.nodesLoaded]) := by
  have hmain := enumerate_nodes_sweep_eq env s a hi n rest hcur hnodes hnets
  refine ⟨?_, ?_, ?_, ?_, ?_⟩
  · intro h o e c hx hc
    refine ⟨probeActs_swallowed env h o e c hx hc, ?_⟩
    intro hmem
    have := (List.mem_filter.mp hmem).2
    rw [probeHit, hx] at this
    cases c with
    | zero => exact hc rfl
    | succ k => simp at this
  · intro h m hmem hx
    rw [hmain]
    refine List.mem_append.mpr (Or.inl ?_)
    refine List.mem_flatMap.mpr ⟨h, hmem, ?_⟩
    rw [probeActs_sshFail env h m hx]
    simp
  · rw [hmain]
    simp only [List.filterMap_append, filterMap_flatMap']
    simp only [probeActs_execCmds, flatMap_single]
    simp [execCmdOf]
  · rw [hmain]
    have := getCurrent_updateHost s a hi
      (fun h => { h with nodes := h.nodes ++ n.hosts.filter (probeHit env) }) hcur
    rw [this]
    simp [hnodes]
  · rw [hmain]
    exact ⟨n.hosts.flatMap (probeActs env) ++ [Act.save], by simp⟩

/-- C7 witness: in the concrete scenario where probing `10.0.0.1`
hits a transport failure, the non-fatal activity message appears in
the sweep trace. -/
theorem c7_sweep_error_handling_witness :
    (getCurrent state30 = some ("10.0.0.250", host30)
      ∧ host30.nodes = [] ∧ host30.networks = net30 :: []
      ∧ "10.0.0.1" ∈ net30.hosts
      ∧ envC7.exec (pingCmd "10.0.0.1") = .sshFail "conn reset")
    ∧ Act.activity ("Node enumeration failed: " ++ "conn reset")
        ∈ (enumerate_nodes envC7 state30).1 :=
  ⟨⟨by decide, by decide, by decide, by decide, by rfl⟩,
   (c7_sweep_error_handling envC7 state30 "10.0.0.250" host30 net30 []
      (by decide) (by decide) (by decide)).2.1 "10.0.0.1" "conn reset"
      (by decide) (by rfl)⟩

/-- C2 counterexample: the transport connects, then the prompt read
raises `SSHException`.  `setup` emits exactly one
`host_establishment(false, "ssh")`, but the just-registered profile
stays in the registry and `current_host` stays set — partial state IS
retained on this classified failure, refuting the claim. -/
theorem c2_counterexample :
    (setup envPromptFail state0 "10.0.0.9" "u" "p").1.filterMap hostEstOf
        = [(false, some "ssh")]
    ∧ state0.current_host = none
    ∧ state0.host_pool = []
    ∧ (setup envPromptFail state0 "10.0.0.9" "u" "p").2.current_host = some "10.0.0.9"
    ∧ (setup envPromptFail state0 "10.0.0.9" "u" "p").2.host_pool
        = [("10.0.0.9", newHostInfo "10.0.0.9" "u")] := by
  refine ⟨?_, rfl, rfl, ?_, ?_⟩ <;> decide

/-- C2 (amended): every failure of the connect/setup flow is
classified as exactly one of authentication / network / ssh /
unknown, and `setup` emits exactly one
`host_establishment(is_ok=False, error_type)` and returns.  Failures
raised by the transport connect itself leave `current_host` and the
registry untouched; an ssh-classified protocol failure during the
post-connect prompt read, however, leaves the just-registered profile
in the (already persisted) registry with `current_host` set to it. -/
theorem c2_setup_failure_classification (env : Env) (s : ReConState)
    (h u p : String) :
    (∀ m, env.connectResult = .authException m →
      setup env s h u p
        = ([Act.activity ("Connecting to " ++ h ++ "..."),
            Act.activity ("Authentication failed: " ++ m),
            Act.hostEstablishment false (some "authentication")], s))
    ∧ (∀ m, env.connectResult = .timeoutOrSocket m →
      setup env s h u p
        = ([Act.activity ("Connecting to " ++ h ++ "..."),
            Act.activity ("Network error connecting: " ++ m),
            Act.hostEstablishment false (some "network")], s))
    ∧ (∀ m, env.connectResult = .sshException m →
      setup env s h u p
        = ([Act.activity ("Connecting to " ++ h ++ "..."),
            Act.activity ("SSH error connecting: " ++ m),
            Act.hostEstablishment false (some "ssh")], s))
    ∧ (∀ m, env.connectResult = .otherException m →
      setup env s h u p
        = ([Act.activity ("Connecting to " ++ h ++ "..."),
            Act.activity ("Unexpected error connecting: " ++ m),
            Act.hostEstablishment false (some "unknown")], s))
    ∧ (∀ m, env.connectResult = .ok → env.promptResult = .sshException m →
      (setup env s h u p).1
          = [Act.activity ("Connecting to " ++ h ++ "..."), Act.save,
             Act.activity "Checking prompt...",
             Act.activity ("SSH error connecting: " ++ m),
             Act.hostEstablishment false (some "ssh")]
        ∧ (setup env s h u p).2.current_host = some h
        ∧ (setup env s h u p).2.host_pool
            = poolSetdefault s.host_pool h (newHostInfo h u)) := by
  refine ⟨?_, ?_, ?_, ?_, ?_⟩
  · intro m hx
    unfold setup connect'
    rw [hx]
    rfl
  · intro m hx
    unfold setup connect'
    rw [hx]
    rfl
  · intro m hx
    unfold setup connect'
    rw [hx]
    rfl
  · intro m hx
    unfold setup connect'
    rw [hx]
    rfl
  · intro m hok hpr
    unfold setup connect'
    rw [hok, hpr]
    exact ⟨rfl, rfl, rfl⟩

/-- C2 witness: the amended theorem instantiates on the concrete
prompt-failure scenario. -/
theorem c2_setup_failure_classification_witness :
    (envPromptFail.connectResult = ConnectOutcome.ok
      ∧ envPromptFail.promptResult = PromptOutcome.sshException "SSH session not active")
    ∧ ((setup envPromptFail state0 "10.0.0.9" "u" "p").1
          = [Act.activity ("Connecting to " ++ "10.0.0.9" ++ "..."), Act.save,
             Act.activity "Checking prompt...",
             Act.activity ("SSH error connecting: " ++ "SSH session not active"),
             Act.hostEstablishment false (some "ssh")]
        ∧ (setup envPromptFail state0 "10.0.0.9" "u" "p").2.current_host
            = some "10.0.0.9"
        ∧ (setup envPromptFail state0 "10.0.0.9" "u" "p").2.host_pool
            = poolSetdefault state0.host_pool "10.0.0.9" (newHostInfo "10.0.0.9" "u")) :=
  ⟨⟨rfl, rfl⟩,
   (c2_setup_failure_classification envPromptFail state0 "10.0.0.9" "u" "p").2.2.2.2
     "SSH session not active" rfl rfl⟩

/-- C4: re-enumerating with a populated cache is a no-op on the state
(no remote command is issued) and still emits the "loaded" event with
the cached list; for nodes it replays `node_found` for every cached
entry, in order, before `nodes_loaded`. -/
theorem c4_cached_enumerate_noop (env : Env) (s : ReConState) (a : String)
    (hi : HostInfo) (hcur : getCurrent s = some (a, hi)) :
    (hi.consoles ≠ [] →
      enumerate_consoles env s = ([Act.consolesLoaded hi.consoles], s))
    ∧ (hi.networks ≠ [] →
      enumerate_local_networks env s
        = ([Act.localNetworksLoaded (hi.networks.map netToString)], s))
    ∧ (hi.nodes ≠ [] →
      enumerate_nodes env s
        = (hi.nodes.map Act.nodeFound ++ [Act.nodesLoaded], s)) := by
  refine ⟨?_, ?_, ?_⟩ <;> intro hne
  · unfold enumerate_consoles
    rw [hcur]
    simp [hne]
  · unfold enumerate_local_networks
    rw [hcur]
    simp [hne]
  · unfold enumerate_nodes
    rw [hcur]
    simp [hne]

/-- C4 witness: the cached scenario replays its console cache. -/
theorem c4_cached_enumerate_noop_witness :
    (getCurrent stateCached = some ("192.168.1.7", hostCached)
      ∧ hostCached.consoles ≠ [])
    ∧ enumerate_consoles envBase stateCached
        = ([Act.consolesLoaded hostCached.consoles], stateCached) :=
  ⟨⟨by decide, by decide⟩,
   (c4_cached_enumerate_noop envBase stateCached "192.168.1.7" hostCached
      (by decide)).1 (by decide)⟩

/-- C5: a successful connect registers the address first-write-wins:
a fresh address gets exactly one new profile with empty caches, a
known address keeps its profile untouched; either way the profile
becomes current and the registry is persisted exactly once. -/
theorem c5_connect_first_write_wins (env : Env) (s : ReConState)
    (h u p : String) (hok : env.connectResult = .ok) :
    (connect' env s h u p).state.current_host = some h
    ∧ (poolLookup s.host_pool h = none →
        (connect' env s h u p).state.host_pool = s.host_pool ++ [(h, newHostInfo h u)]
        ∧ poolLookup (connect' env s h u p).state.host_pool h = some (newHostInfo h u))
    ∧ (∀ hi, poolLookup s.host_pool h = some hi →
        (connect' env s h u p).state.host_pool = s.host_pool)
    ∧ (connect' env s h u p).acts.count Act.save = 1 := by
  have hst := connect_ok_state env s h u p hok
  refine ⟨hst.2.1, ?_, ?_, connect_ok_save env s h u p hok⟩
  · intro hnone
    constructor
    · rw [hst.1, poolSetdefault_of_none s.host_pool h (newHostInfo h u) hnone]
    · rw [hst.1, poolLookup_setdefault_self, hnone]
      rfl
  · intro hi hsome
    rw [hst.1, poolSetdefault_of_some s.host_pool h (newHostInfo h u) hi hsome]

/-- C5 witness: connecting to a fresh address from the pristine state
creates exactly the one new empty profile. -/
theorem c5_connect_first_write_wins_witness :
    (envBase.connectResult = ConnectOutcome.ok
      ∧ poolLookup state0.host_pool "10.0.0.9" = none)
    ∧ ((connect' envBase state0 "10.0.0.9" "u" "pw").state.host_pool
          = state0.host_pool ++ [("10.0.0.9", newHostInfo "10.0.0.9" "u")]
        ∧ poolLookup (connect' envBase state0 "10.0.0.9" "u" "pw").state.host_pool
            "10.0.0.9" = some (newHostInfo "10.0.0.9" "u")) :=
  ⟨⟨rfl, by decide⟩,
   (c5_connect_first_write_wins envBase state0 "10.0.0.9" "u" "pw" rfl).2.1
     (by decide)⟩

/-- C6: `execute_command` turns a non-zero remote exit status
(including 137) into the typed `ReConCommandError` carrying exactly
the command text, that exit code and both collected decoded streams;
a zero exit status returns the decoded output, error and status. -/
theorem c6_execute_command_typed (env : Env) (cmd out err : String)
    (code : Nat) (hx : env.exec cmd = .done out err code) :
    (code ≠ 0 →
      (execute_command env cmd).2 = .error (.command cmd code out err))
    ∧ (code = 0 → (execute_command env cmd).2 = .ok (out, err, 0)) := by
  constructor
  · intro hc
    simp [execute_command, hx, hc]
  · intro hc
    subst hc
    simp [execute_command, hx]

/-- C6 witness: exit code 137 yields the typed command failure with
both streams. -/
theorem c6_execute_command_typed_witness :
    (envCmd137.exec "reg query HKLM" = .done "partial out" "oom-killed" 137
      ∧ (137 : Nat) ≠ 0)
    ∧ (execute_command envCmd137 "reg query HKLM").2
        = .error (.command "reg query HKLM" 137 "partial out" "oom-killed") :=
  ⟨⟨rfl, by decide⟩,
   (c6_execute_command_typed envCmd137 "reg query HKLM" "partial out"
      "oom-killed" 137 rfl).1 (by decide)⟩

/-- C3: `toggle_https_tunnel` is a strict two-state flip on the
process handle.  With the handle absent and two distinct cached
nodes, it allocates one ephemeral local port per node, launches a
single background ssh process carrying one `-L localPort:node:443`
spec per node, and emits `tunnel_established` with the full mapping
of size 2 (distinct ports when the allocator returns distinct
ports); with the handle present it always closes — terminating the
process, dropping the handle, emitting `tunnel_closed` — and never
re-opens. -/
theorem c3_toggle_strict_flip (env : Env) (s : ReConState) (a : String)
    (hi : HostInfo) (kf n1 n2 : String)
    (hcur : getCurrent s = some (a, hi))
    (hk : s.key_file = some kf)
    (ht : s.ssh_tunnel_proc = none)
    (hnodes : hi.nodes = [n1, n2])
    (hne : n1 ≠ n2)
    (hports : env.ports 0 ≠ env.ports 1) :
    toggle_https_tunnel env s
        = ([Act.activity "Establishing tunnel...",
            Act.spawnProc ["ssh", "-N", "-i", kf, hi.username ++ "@" ++ hi.address,
              "-L", toString (env.ports 0) ++ ":" ++ n1 ++ ":443",
              "-L", toString (env.ports 1) ++ ":" ++ n2 ++ ":443"],
            Act.tunnelEstablished [(n1, env.ports 0), (n2, env.ports 1)]],
           { s with ssh_tunnel_proc :=
               (some ["ssh", "-N", "-i", kf, hi.username ++ "@" ++ hi.address,
                 "-L", toString (env.ports 0) ++ ":" ++ n1 ++ ":443",
                 "-L", toString (env.ports 1) ++ ":" ++ n2 ++ ":443"]) })
    ∧ ([(n1, env.ports 0), (n2, env.ports 1)].length = 2
        ∧ env.ports 0 ≠ env.ports 1)
    ∧ toggle_https_tunnel env (toggle_https_tunnel env s).2
        = ([Act.activity "Closing tunnel...", Act.terminateTunnel, Act.tunnelClosed],
           { (toggle_https_tunnel env s).2 with ssh_tunnel_proc := none })
    ∧ (toggle_https_tunnel env (toggle_https_tunnel env s).2).2.ssh_tunnel_proc = none
    ∧ (∀ (s2 : ReConState) (pr : List String), s2.ssh_tunnel_proc = some pr →
        toggle_https_tunnel env s2
          = ([Act.activity "Closing tunnel...", Act.terminateTunnel, Act.tunnelClosed],
             { s2 with ssh_tunnel_proc := none })) := by
  have hclose : ∀ (s2 : ReConState) (pr : List String), s2.ssh_tunnel_proc = some pr →
      toggle_https_tunnel env s2
        = ([Act.activity "Closing tunnel...", Act.terminateTunnel, Act.tunnelClosed],
           { s2 with ssh_tunnel_proc := none }) := by
    intro s2 pr h2
    unfold toggle_https_tunnel
    rw [h2]
  have hargs : tunnelArgs env kf hi
      = ["ssh", "-N", "-i", kf, hi.username ++ "@" ++ hi.address,
         "-L", toString (env.ports 0) ++ ":" ++ n1 ++ ":443",
         "-L", toString (env.ports 1) ++ ":" ++ n2 ++ ":443"] := by
    simp [tunnelArgs, hnodes, List.enum, List.enumFrom]
  have hmap : tunnelMapping env hi.nodes = [(n1, env.ports 0), (n2, env.ports 1)] := by
    rw [hnodes]
    simp [tunnelMapping, dictInsert, List.enum, List.enumFrom, hne]
  have hopen : toggle_https_tunnel env s
      = ([Act.activity "Establishing tunnel...",
          Act.spawnProc (tunnelArgs env kf hi),
          Act.tunnelEstablished (tunnelMapping env hi.nodes)],
         { s with ssh_tunnel_proc := some (tunnelArgs env kf hi) }) := by
    unfold toggle_https_tunnel
    rw [ht, hcur, hk]
  refine ⟨?_, ⟨rfl, hports⟩, ?_, ?_, hclose⟩
  · rw [hopen, hargs, hmap]
  · rw [hclose (toggle_https_tunnel env s).2 (tunnelArgs env kf hi) (by rw [hopen])]
  · rw [hclose (toggle_https_tunnel env s).2 (tunnelArgs env kf hi) (by rw [hopen])]

/-- C3 witness: the cached two-node scenario opens with a size-2
mapping and the second toggle drops the handle. -/
theorem c3_toggle_strict_flip_witness :
    (getCurrent stateCached = some ("192.168.1.7", hostCached)
      ∧ stateCached.key_file = some "/tmp/reconkey"
      ∧ stateCached.ssh_tunnel_proc = none
      ∧ hostCached.nodes = ["192.168.1.10", "192.168.1.20"]
      ∧ "192.168.1.10" ≠ "192.168.1.20"
      ∧ envBase.ports 0 ≠ envBase.ports 1)
    ∧ (toggle_https_tunnel envBase
        (toggle_https_tunnel envBase stateCached).2).2.ssh_tunnel_proc = none :=
  ⟨⟨by decide, rfl, rfl, by decide, by decide, by decide⟩,
   (c3_toggle_strict_flip envBase stateCached "192.168.1.7" hostCached
      "/tmp/reconkey" "192.168.1.10" "192.168.1.20"
      (by decide) rfl rfl (by decide) (by decide) (by decide)).2.2.2.1⟩

/-- C9 counterexample: with the key-file deletion raising (say the
file is already gone), `stop` never reaches the console bulk-kill
step — a failure in one step does prevent the remaining steps. -/
theorem c9_counterexample :
    (stop envRemoveFail stateCached).1
        = [Act.closeTransport, Act.removeKeyFile "/tmp/reconkey"]
    ∧ Act.taskkill ∉ (stop envRemoveFail stateCached).1
    ∧ (stop envRemoveFail stateCached).2.isSome = true := by
  refine ⟨?_, ?_, ?_⟩ <;> decide

/-- C9 (amended): `stop` attempts the four shutdown steps in
sequence — transport close (unconditionally), tunnel terminate and
key-file delete guarded by presence, then the window-title bulk
kill.  When no step raises, every applicable step runs; the steps are
not isolated, so a step that raises prevents the remaining ones (see
the counterexample). -/
theorem c9_stop_sequential (env : Env) (s : ReConState) :
    (env.closeRaises = false → env.terminateRaises = false →
      env.removeRaises = false →
      stop env s
        = ([Act.closeTransport]
            ++ (match s.ssh_tunnel_proc with
                | some _ => [Act.terminateTunnel] | none => [])
            ++ (match s.key_file with
                | some pth => [Act.removeKeyFile pth] | none => [])
            ++ [Act.taskkill], none))
    ∧ (∀ pth, env.closeRaises = false → env.terminateRaises = false →
        env.removeRaises = true → s.key_file = some pth →
        Act.taskkill ∉ (stop env s).1) := by
  constructor
  · intro h1 h2 h3
    unfold stop
    rw [h1, h2, h3]
    simp
  · intro pth h1 h2 h3 hk
    unfold stop
    rw [h1, h3, hk]
    cases s.ssh_tunnel_proc <;> simp [h2]

/-- C9 witness: with nothing raising, all four steps of the cached
scenario run in order. -/
theorem c9_stop_sequential_witness :
    (envBase.closeRaises = false ∧ envBase.terminateRaises = false
      ∧ envBase.removeRaises = false)
    ∧ stop envBase stateCached
        = ([Act.closeTransport, Act.removeKeyFile "/tmp/reconkey", Act.taskkill],
           none) :=
  ⟨⟨rfl, rfl, rfl⟩,
   (c9_stop_sequential envBase stateCached).1 rfl rfl rfl⟩

/-- C8: key deployment generates a fresh 2048-bit pair, serializes
the private key to the temporary path which becomes the session
credential, and issues the remote command writing the public key into
`C:\Users\<username>\.ssh\authorized_keys`; a failure of the
directory-creation step or of the remote command is reported as a
degraded-capability notification and `deploy_key` returns without
raising, so a `setup` whose connect succeeded still emits
`host_establishment(true)` and runs the enumerators. -/
theorem c8_deploy_key_degrades (env : Env) (s : ReConState) (a : String)
    (hi : HostInfo) (hcur : getCurrent s = some (a, hi)) :
    (deploy_key env s).2.key_file = some env.tmpFile
    ∧ Act.generateKey 2048 ∈ (deploy_key env s).1
    ∧ Act.writeKeyFile env.tmpFile ∈ (deploy_key env s).1
    ∧ (∀ m, env.sshDirExists = false → env.mkdirError = some m →
        (deploy_key env s).1
          = [Act.generateKey 2048, Act.writeKeyFile env.tmpFile,
             Act.makeDirs (sshDirPath hi.username),
             Act.fatalError "Failed to create .ssh directory. Most features will not work."])
    ∧ (∀ (o e : String) (c : Nat), env.sshDirExists = true →
        env.exec (deployCmd env hi.username) = .done o e c → c ≠ 0 →
        (deploy_key env s).1
          = [Act.generateKey 2048, Act.writeKeyFile env.tmpFile,
             Act.execCmd (deployCmd env hi.username),
             Act.fatalError "Failed to deploy SSH key. Most features will not work."])
    ∧ (∀ (h u pw q : String), env.connectResult = .ok →
        env.promptResult = .received q →
        Act.hostEstablishment true none ∈ (setup env s h u pw).1
        ∧ ∃ cs, Act.consolesLoaded cs ∈ (setup env s h u pw).1) := by
  refine ⟨?_, ?_, ?_, ?_, ?_, ?_⟩
  · rw [deploy_key_state_some env s (a, hi) hcur]
  · unfold deploy_key deployRemote
    rw [hcur]
    cases env.sshDirExists with
    | true =>
      cases hx : env.exec (deployCmd env hi.username) with
      | sshFail m => simp [execute_command, hx]
      | done o e c => cases c <;> simp [execute_command, hx]
    | false =>
      cases env.mkdirError with
      | some m => simp
      | none =>
        cases hx : env.exec (deployCmd env hi.username) with
        | sshFail m => simp [execute_command, hx]
        | done o e c => cases c <;> simp [execute_command, hx]
  · unfold deploy_key deployRemote
    rw [hcur]
    cases env.sshDirExists with
    | true =>
      cases hx : env.exec (deployCmd env hi.username) with
      | sshFail m => simp [execute_command, hx]
      | done o e c => cases c <;> simp [execute_command, hx]
    | false =>
      cases env.mkdirError with
      | some m => simp
      | none =>
        cases hx : env.exec (deployCmd env hi.username) with
        | sshFail m => simp [execute_command, hx]
        | done o e c => cases c <;> simp [execute_command, hx]
  · intro m h1 h2
    unfold deploy_key
    rw [hcur, h1, h2]
    rfl
  · intro o e c h1 hx hc
    unfold deploy_key deployRemote
    rw [hcur, h1]
    cases c with
    | zero => exact absurd rfl hc
    | succ k => simp [execute_command, hx]
  · intro h u pw q hok hpr
    obtain ⟨tail, hsh⟩ := setup_success_shape env s h u pw q hok hpr
    constructor
    · rw [hsh]
      simp
    · have hg2 := connect_ok_getCurrent env s h u pw hok
      obtain ⟨cs, hcs⟩ :=
        enumerate_consoles_emits env (connect' env s h u pw).state h _ hg2
      exact ⟨cs, by rw [hsh]; simp [List.mem_append, hcs]⟩

/-- C8 witness: the directory-creation failure scenario reports the
degraded-capability notification and nothing else. -/
theorem c8_deploy_key_degrades_witness :
    (getCurrent stateCached = some ("192.168.1.7", hostCached)
      ∧ envMkdirFail.sshDirExists = false
      ∧ envMkdirFail.mkdirError = some "Access is denied")
    ∧ (deploy_key envMkdirFail stateCached).1
        = [Act.generateKey 2048, Act.writeKeyFile envMkdirFail.tmpFile,
           Act.makeDirs (sshDirPath hostCached.username),
           Act.fatalError "Failed to create .ssh directory. Most features will not work."] :=
  ⟨⟨by decide, rfl, rfl⟩,
   (c8_deploy_key_degrades envMkdirFail stateCached "192.168.1.7" hostCached
      (by decide)).2.2.2.1 "Access is denied" rfl rfl⟩

/-- C10: reconnecting to a registered address with a different
username keeps the stored profile (and its username) unchanged, and
the subsequent key deployment, tunnel launch and shell spawn all
address the host with the originally-stored username, not the one
just authenticated with. -/
theorem c10_stored_username_wins (env : Env) (s : ReConState)
    (h uNew pw q : String) (hiOld : HostInfo)
    (hok : env.connectResult = .ok)
    (hpr : env.promptResult = .received q)
    (hd : env.sshDirExists = true)
    (hsome : poolLookup s.host_pool h = some hiOld)
    (hdiff : hiOld.username ≠ uNew)
    (ht : s.ssh_tunnel_proc = none) :
    poolLookup (connect' env s h uNew pw).state.host_pool h = some hiOld
    ∧ Act.execCmd (deployCmd env hiOld.username) ∈ (connect' env s h uNew pw).acts
    ∧ (connect' env s h uNew pw).state.key_file = some env.tmpFile
    ∧ (toggle_https_tunnel env (connect' env s h uNew pw).state).1
        = [Act.activity "Establishing tunnel...",
           Act.spawnProc (tunnelArgs env env.tmpFile hiOld),
           Act.tunnelEstablished (tunnelMapping env hiOld.nodes)]
    ∧ (tunnelArgs env env.tmpFile hiOld).take 5
        = ["ssh", "-N", "-i", env.tmpFile, hiOld.username ++ "@" ++ hiOld.address]
    ∧ (∃ rc, spawn_shell (connect' env s h uNew pw).state
        = [Act.spawnProc ["ssh", "-o StrictHostKeyChecking=no", "-t", "-i",
            env.tmpFile, hiOld.username ++ "@" ++ hiOld.address, rc]]) := by
  have hmid : getCurrent (connectMid s h uNew q) = some (h, hiOld) := by
    rw [connectMid_getCurrent s h uNew q, hsome]
    rfl
  have hpool : (connect' env s h uNew pw).state.host_pool = s.host_pool := by
    rw [(connect_ok_state env s h uNew pw hok).1,
      poolSetdefault_of_some s.host_pool h (newHostInfo h uNew) hiOld hsome]
  have hkf := connect_ok_keyfile env s h uNew pw q hok hpr
  have hgc : getCurrent (connect' env s h uNew pw).state = some (h, hiOld) := by
    rw [connect_ok_getCurrent env s h uNew pw hok, hsome]
    rfl
  have htun : (connect' env s h uNew pw).state.ssh_tunnel_proc = none := by
    rw [(connect_ok_state env s h uNew pw hok).2.2, ht]
  refine ⟨?_, ?_, hkf, ?_, ?_, ?_⟩
  · rw [hpool]
    exact hsome
  · rw [(connect_ok_decomp env s h uNew pw q hok hpr).1]
    refine List.mem_append.mpr (Or.inr ?_)
    exact deploy_key_execCmd_mem env (connectMid s h uNew q) (h, hiOld) hmid hd
  · unfold toggle_https_tunnel
    rw [htun, hgc, hkf]
  · rfl
  · exact ⟨_, by unfold spawn_shell; rw [hgc, hkf]⟩

/-- C10 witness: reconnecting to `10.0.0.9` as `bob` keeps the stored
`alice` profile untouched. -/
theorem c10_stored_username_wins_witness :
    (envBase.connectResult = ConnectOutcome.ok
      ∧ envBase.promptResult = PromptOutcome.received ""
      ∧ envBase.sshDirExists = true
      ∧ poolLookup stateOld.host_pool "10.0.0.9" = some hostOld
      ∧ hostOld.username ≠ "bob"
      ∧ stateOld.ssh_tunnel_proc = none)
    ∧ poolLookup (connect' envBase stateOld "10.0.0.9" "bob" "pw").state.host_pool
        "10.0.0.9" = some hostOld :=
  ⟨⟨rfl, rfl, rfl, by decide, by decide, rfl⟩,
   (c10_stored_username_wins envBase stateOld "10.0.0.9" "bob" "pw" "" hostOld
      rfl rfl rfl (by decide) (by decide) rfl).1⟩

end Recon
